import Mathlib

/-!
Shallow embedding of the earnings-projection engine of `payments_app.py`
(the core functions `is_active_by_lifetime`, `survival_factor`,
`per_client_payment`, `build_monthly_dataframe`, `yearly_totals`).

Python floats are modelled as rationals (ℚ), Python ints as ℤ, the
string-dispatched modes as enumerations.  The month loop of
`build_monthly_dataframe` is modelled as a step function on an explicit
engine state (cohort list, cumulative signed count, emitted rows), run
from month 1 to the horizon.
-/

namespace PaymentsApp

/-- The `lifetime_mode` strings: "From activation" | "After free months". -/
inductive LifetimeMode where
  | fromActivation
  | afterFreeMonths
deriving DecidableEq

/-- The `cancellations_mode` strings: "Fixed" | "Churn". -/
inductive CancellationsMode where
  | fixed
  | churn
deriving DecidableEq

/-- The `payout_policy` strings:
"Bonus only (no recurring)" | "Bonus + Recurring" | "Recurring only (no bonus)". -/
inductive PayoutPolicy where
  | bonusOnly
  | bonusRecurring
  | recurringOnly
deriving DecidableEq

/-- The `payout_type` strings: "Commissionable (x%)" | "Flat (direct)". -/
inductive PayoutType where
  | commissionable
  | flat
deriving DecidableEq

/-- The `contract_type` strings: "Intro + Recurring" | "Flat Monthly". -/
inductive ContractType where
  | introRecurring
  | flatMonthly
deriving DecidableEq

/-- `is_active_by_lifetime` from the source: true iff the client is still
inside the lifetime window. -/
def is_active_by_lifetime (age_from_activation age_from_first_payment lifetime_months : ℤ)
    (lifetime_mode : LifetimeMode) : Bool :=
  if lifetime_months ≤ 0 then
    true
  else if lifetime_mode = LifetimeMode.fromActivation then
    decide (age_from_activation < lifetime_months)
  else
    decide (age_from_first_payment < lifetime_months)

/-- `survival_factor` from the source: survival factor under constant
monthly churn. -/
def survival_factor (churn_rate : ℚ) (churn_age : ℤ) : ℚ :=
  if churn_rate ≤ 0 ∨ churn_age ≤ 0 then
    1
  else
    (1 - churn_rate) ^ churn_age.toNat

/-- `per_client_payment` from the source: one client's gross payment in the
given month. -/
def per_client_payment (contract_type : ContractType)
    (age_from_activation free_months intro_months : ℤ)
    (intro_amount recurring_amount flat_amount : ℚ) : ℚ :=
  if age_from_activation < free_months then
    0
  else
    let eff_age := age_from_activation - free_months
    if contract_type = ContractType.introRecurring then
      if eff_age < intro_months then intro_amount else recurring_amount
    else
      flat_amount

/-- The argument list of `build_monthly_dataframe`. -/
structure Params where
  months : ℕ
  default_new_clients : ℤ
  override_month : ℤ
  override_new_clients : ℤ
  cancellations_mode : CancellationsMode
  cancellations : ℤ
  churn_percent : ℚ
  commission_rate : ℚ
  payout_policy : PayoutPolicy
  payout_type : PayoutType
  use_new_sale_bonus : Bool
  new_sale_payout : ℚ
  payout_duration : ℤ
  contract_type : ContractType
  free_months : ℤ
  intro_months : ℤ
  intro_amount : ℚ
  recurring_amount : ℚ
  flat_amount : ℚ
  lifetime_months : ℤ
  lifetime_mode : LifetimeMode
  currency : String

/-- A cohort record `{"birth": m, "size": net_size}`. -/
structure Cohort where
  birth : ℕ
  size : ℤ
deriving DecidableEq

/-- One row of the monthly dataframe.  The "Cancellations" column shows the
fixed count in Fixed mode and "-" (here `none`) in Churn mode. -/
structure Row where
  month : ℕ
  new_clients : ℤ
  cancellations_shown : Option ℤ
  mode : CancellationsMode
  net_activations : ℤ
  signed_cum : ℤ
  paying_clients : ℚ
  gross_client_payments : ℚ
  new_sale_income : ℚ
  commission_from_clients : ℚ
  total_monthly_earnings : ℚ
deriving DecidableEq

/-- `churn_rate = max(min(churn_percent / 100.0, 0.99), 0.0)`. -/
def clamped_churn_rate (p : Params) : ℚ :=
  max (min (p.churn_percent / 100) (99 / 100)) 0

/-- `include_bonus = payout_policy in ["Bonus only (no recurring)", "Bonus + Recurring"]`. -/
def include_bonus (p : Params) : Bool :=
  decide (p.payout_policy ∈ [PayoutPolicy.bonusOnly, PayoutPolicy.bonusRecurring])

/-- `include_recurring = payout_policy in ["Bonus + Recurring", "Recurring only (no bonus)"]`. -/
def include_recurring (p : Params) : Bool :=
  decide (p.payout_policy ∈ [PayoutPolicy.bonusRecurring, PayoutPolicy.recurringOnly])

/-- `bonus_is_commissionable = (payout_type == "Commissionable (x%)")`. -/
def bonus_is_commissionable (p : Params) : Bool :=
  decide (p.payout_type = PayoutType.commissionable)

/-- `new_clients_this_month = override_new_clients if (override_month == m and
override_month > 0) else default_new_clients`. -/
def newClientsAt (p : Params) (m : ℕ) : ℤ :=
  if p.override_month = (m : ℤ) ∧ p.override_month > 0 then
    p.override_new_clients
  else
    p.default_new_clients

/-- Net cohort size at birth: `max(new - cancellations, 0)` in Fixed mode,
`new` unchanged in Churn mode. -/
def netSizeAt (p : Params) (m : ℕ) : ℤ :=
  if p.cancellations_mode = CancellationsMode.fixed then
    max (newClientsAt p m - p.cancellations) 0
  else
    newClientsAt p m

/-- Body of the inner `for c in cohorts` loop: the (gross, paying)
contribution of one cohort in month `m` (0 if skipped). -/
def cohort_contrib (p : Params) (churn_rate : ℚ) (m : ℕ) (c : Cohort) : ℚ × ℚ :=
  let age_from_activation : ℤ := (m : ℤ) - (c.birth : ℤ)
  if age_from_activation < 0 then
    (0, 0)
  else
    let age_from_first_payment := max (age_from_activation - p.free_months) 0
    if is_active_by_lifetime age_from_activation age_from_first_payment
        p.lifetime_months p.lifetime_mode then
      let sf : ℚ :=
        if p.cancellations_mode = CancellationsMode.churn then
          survival_factor churn_rate
            (if p.lifetime_mode = LifetimeMode.fromActivation then age_from_activation
             else age_from_first_payment)
        else 1
      let per_client_gross :=
        per_client_payment p.contract_type age_from_activation p.free_months
          p.intro_months p.intro_amount p.recurring_amount p.flat_amount
      if per_client_gross > 0 then
        let active_clients := (c.size : ℚ) * sf
        (per_client_gross * active_clients, active_clients)
      else
        (0, 0)
    else
      (0, 0)

/-- The whole inner loop: accumulated (gross_client_payments,
paying_clients_this_month) over all cohorts. -/
def recurring_totals (p : Params) (churn_rate : ℚ) (m : ℕ)
    (cohorts : List Cohort) : ℚ × ℚ :=
  cohorts.foldl (fun acc c =>
    let gp := cohort_contrib p churn_rate m c
    (acc.1 + gp.1, acc.2 + gp.2)) (0, 0)

/-- The row emitted for month `m`, given the cohort list after this month's
append and the updated cumulative signed count. -/
def mkRow (p : Params) (churn_rate : ℚ) (m : ℕ) (cohorts : List Cohort)
    (signed_cum : ℤ) (new_clients_this_month net_size : ℤ) : Row :=
  let gp : ℚ × ℚ :=
    if include_recurring p then recurring_totals p churn_rate m cohorts else (0, 0)
  let gross_client_payments := gp.1
  let paying_clients_this_month := gp.2
  let commission_from_clients :=
    if include_recurring p then gross_client_payments * p.commission_rate else 0
  let bonus_raw : ℚ :=
    if include_bonus p ∧ p.use_new_sale_bonus ∧ p.payout_duration > 0 ∧
        (m : ℤ) ≤ p.payout_duration then
      p.new_sale_payout * (new_clients_this_month : ℚ)
    else 0
  let bonus_to_agent :=
    if bonus_is_commissionable p then bonus_raw * p.commission_rate else bonus_raw
  let total : ℚ :=
    if p.payout_policy = PayoutPolicy.bonusOnly then bonus_to_agent
    else if p.payout_policy = PayoutPolicy.recurringOnly then commission_from_clients
    else bonus_to_agent + commission_from_clients
  { month := m
    new_clients := new_clients_this_month
    cancellations_shown :=
      if p.cancellations_mode = CancellationsMode.fixed then some p.cancellations else none
    mode := p.cancellations_mode
    net_activations := net_size
    signed_cum := signed_cum
    paying_clients := paying_clients_this_month
    gross_client_payments := gross_client_payments
    new_sale_income := bonus_to_agent
    commission_from_clients := commission_from_clients
    total_monthly_earnings := total }

/-- The loop-carried state of `build_monthly_dataframe`. -/
structure EngineState where
  cohorts : List Cohort
  signed_cum : ℤ
  rows : List Row

/-- State before the first iteration: `rows = []`, `cohorts = []`, `signed_cum = 0`. -/
def initState : EngineState := ⟨[], 0, []⟩

/-- One iteration of the `for m in range(1, months + 1)` loop. -/
def step (p : Params) (churn_rate : ℚ) (m : ℕ) (st : EngineState) : EngineState :=
  let new_clients_this_month := newClientsAt p m
  let net_size := netSizeAt p m
  let cohorts := st.cohorts ++ [⟨m, net_size⟩]
  let signed_cum := st.signed_cum + net_size
  { cohorts := cohorts
    signed_cum := signed_cum
    rows := st.rows ++ [mkRow p churn_rate m cohorts signed_cum
      new_clients_this_month net_size] }

/-- State after the first `n` iterations. -/
def runState (p : Params) (churn_rate : ℚ) : ℕ → EngineState
  | 0 => initState
  | n + 1 => step p churn_rate (n + 1) (runState p churn_rate n)

/-- `build_monthly_dataframe` from the source: the list of monthly rows. -/
def build_monthly_dataframe (p : Params) : List Row :=
  (runState p (clamped_churn_rate p) p.months).rows

/-- `Year = (Month - 1) // 12 + 1`. -/
def yearOf (m : ℕ) : ℕ := (m - 1) / 12 + 1

/-- One row of the yearly-totals dataframe. -/
structure YearRow where
  year : ℕ
  gross_client_payments : ℚ
  new_sale_income : ℚ
  commission_from_clients : ℚ
  total_earnings : ℚ
deriving DecidableEq

/-- The aggregated row of one year: the four metric columns summed over the
monthly rows belonging to that year. -/
def yearSum (rows : List Row) (y : ℕ) : YearRow :=
  let grp := rows.filter (fun r => yearOf r.month == y)
  { year := y
    gross_client_payments := (grp.map Row.gross_client_payments).sum
    new_sale_income := (grp.map Row.new_sale_income).sum
    commission_from_clients := (grp.map Row.commission_from_clients).sum
    total_earnings := (grp.map Row.total_monthly_earnings).sum }

/-- `yearly_totals` from the source: pandas `groupby("Year").agg(sum)`, which
emits one aggregated row per distinct year key, keys sorted ascending. -/
def yearly_totals (rows : List Row) : List YearRow :=
  let maxYear := (rows.map (fun r => yearOf r.month)).foldl max 0
  ((List.range (maxYear + 1)).filter
    (fun y => rows.any (fun r => yearOf r.month == y))).map (yearSum rows)

/-! ### Closed-form description of the loop state -/

/-- The cohort list after month `m` has been processed: one cohort per month
`1..m`, with its net size at birth. -/
def cohortsUpTo (p : Params) (m : ℕ) : List Cohort :=
  (List.range m).map (fun j => ⟨j + 1, netSizeAt p (j + 1)⟩)

/-- The cumulative signed count after month `m`. -/
def signedUpTo (p : Params) (m : ℕ) : ℤ :=
  ((List.range m).map (fun j => netSizeAt p (j + 1))).sum

/-- The row emitted in month `m`, in closed form. -/
def rowAt (p : Params) (churn_rate : ℚ) (m : ℕ) : Row :=
  mkRow p churn_rate m (cohortsUpTo p m) (signedUpTo p m) (newClientsAt p m) (netSizeAt p m)

lemma runState_cohorts (p : Params) (cr : ℚ) (n : ℕ) :
    (runState p cr n).cohorts = cohortsUpTo p n := by
  induction n with
  | zero => rfl
  | succ n ih =>
    simp [runState, step, ih, cohortsUpTo, List.range_succ]

lemma runState_signed (p : Params) (cr : ℚ) (n : ℕ) :
    (runState p cr n).signed_cum = signedUpTo p n := by
  induction n with
  | zero => rfl
  | succ n ih =>
    simp [runState, step, ih, signedUpTo, List.range_succ]

lemma runState_rows (p : Params) (cr : ℚ) (n : ℕ) :
    (runState p cr n).rows = (List.range n).map (fun i => rowAt p cr (i + 1)) := by
  induction n with
  | zero => rfl
  | succ n ih =>
    simp only [runState, step, ih, List.range_succ, List.map_append, List.map_cons,
      List.map_nil, runState_cohorts, runState_signed]
    simp [rowAt, cohortsUpTo, signedUpTo, List.range_succ]

lemma build_eq_map (p : Params) :
    build_monthly_dataframe p =
      (List.range p.months).map (fun i => rowAt p (clamped_churn_rate p) (i + 1)) := by
  simp [build_monthly_dataframe, runState_rows]

lemma build_length (p : Params) :
    (build_monthly_dataframe p).length = p.months := by
  simp [build_eq_map]

lemma build_get (p : Params) (i : ℕ) (hi : i < (build_monthly_dataframe p).length) :
    (build_monthly_dataframe p).get ⟨i, hi⟩ = rowAt p (clamped_churn_rate p) (i + 1) := by
  rw [List.get_eq_getElem]
  have h' : i < p.months := by
    have := hi; rwa [build_length] at this
  simp [build_eq_map]

/-! ### Concrete parameter sets used in scenario claims and witnesses -/

/-- Parameters of the spec scenario: horizon 3, Fixed mode with 0
cancellations, unlimited lifetime, Flat contract of amount 100, no free
months, commission rate 0.5, Recurring-only policy, 1 new client per month,
no override. -/
def P1 : Params :=
  { months := 3
    default_new_clients := 1
    override_month := 0
    override_new_clients := 0
    cancellations_mode := CancellationsMode.fixed
    cancellations := 0
    churn_percent := 0
    commission_rate := 1 / 2
    payout_policy := PayoutPolicy.recurringOnly
    payout_type := PayoutType.commissionable
    use_new_sale_bonus := false
    new_sale_payout := 0
    payout_duration := 0
    contract_type := ContractType.flatMonthly
    free_months := 0
    intro_months := 0
    intro_amount := 0
    recurring_amount := 0
    flat_amount := 100
    lifetime_months := 0
    lifetime_mode := LifetimeMode.fromActivation
    currency := "GBP" }

/-- C1: with horizon 3, Fixed cancellation mode with 0 cancellations,
unlimited lifetime, Flat contract of amount 100, 0 free months, commission
rate 0.5, Recurring-only policy, 1 new client per month and no override,
the engine's gross client payments are 100, 200, 300 and its commissions
from clients are 50, 100, 150 for months 1, 2, 3. -/
theorem C1_flat_recurring_scenario :
    (build_monthly_dataframe P1).map Row.gross_client_payments = [100, 200, 300]
    ∧ (build_monthly_dataframe P1).map Row.commission_from_clients = [50, 100, 150] := by
  norm_num +decide [build_monthly_dataframe, runState, step, mkRow, recurring_totals,
    cohort_contrib, per_client_payment, survival_factor, is_active_by_lifetime,
    newClientsAt, netSizeAt, clamped_churn_rate, include_recurring, include_bonus,
    bonus_is_commissionable, initState, P1]

/-- Bonus-only scenario parameters: bonus 160 per client, payout duration
1 month, 12 new clients per month, commission 50%, horizon 3, Commissionable
payout, Fixed mode with 0 cancellations. -/
def P2 : Params :=
  { months := 3
    default_new_clients := 12
    override_month := 0
    override_new_clients := 0
    cancellations_mode := CancellationsMode.fixed
    cancellations := 0
    churn_percent := 0
    commission_rate := 1 / 2
    payout_policy := PayoutPolicy.bonusOnly
    payout_type := PayoutType.commissionable
    use_new_sale_bonus := true
    new_sale_payout := 160
    payout_duration := 1
    contract_type := ContractType.flatMonthly
    free_months := 0
    intro_months := 0
    intro_amount := 0
    recurring_amount := 0
    flat_amount := 100
    lifetime_months := 0
    lifetime_mode := LifetimeMode.fromActivation
    currency := "GBP" }

lemma include_bonus_iff (p : Params) :
    include_bonus p = true ↔
      (p.payout_policy = PayoutPolicy.bonusOnly ∨ p.payout_policy = PayoutPolicy.bonusRecurring) := by
  simp [include_bonus]

/-- C3: in every emitted row, the New Clients field is the override value
when the month equals the override month and the override month is positive
(the engine's encoding of "override enabled"), and the default monthly
new-client count otherwise; in particular the override value is used even
when it is zero. -/
theorem C3_new_clients_override (p : Params) (i : ℕ)
    (hi : i < (build_monthly_dataframe p).length) :
    ((build_monthly_dataframe p).get ⟨i, hi⟩).new_clients =
      if p.override_month = ((i + 1 : ℕ) : ℤ) ∧ p.override_month > 0 then
        p.override_new_clients
      else
        p.default_new_clients := by
  rw [build_get]
  rfl

theorem C3_witness :
    ((build_monthly_dataframe P2).get ⟨0, by decide⟩).new_clients =
      if P2.override_month = ((0 + 1 : ℕ) : ℤ) ∧ P2.override_month > 0 then
        P2.override_new_clients
      else
        P2.default_new_clients :=
  C3_new_clients_override P2 0 (by decide)

/-- C2: in every emitted row, New Sale Income is
`bonus_amount * new_clients_this_month`, times the commission rate exactly
when the payout type is Commissionable, when the policy includes the bonus,
the bonus usage flag is on, `payout_duration > 0` and the month is at most
`payout_duration`; otherwise it is 0. -/
theorem C2_new_sale_income (p : Params) (i : ℕ)
    (hi : i < (build_monthly_dataframe p).length) :
    ((build_monthly_dataframe p).get ⟨i, hi⟩).new_sale_income =
      if (p.payout_policy = PayoutPolicy.bonusOnly ∨ p.payout_policy = PayoutPolicy.bonusRecurring)
          ∧ p.use_new_sale_bonus = true
          ∧ 0 < p.payout_duration
          ∧ ((i + 1 : ℕ) : ℤ) ≤ p.payout_duration then
        (if p.payout_type = PayoutType.commissionable then
          p.new_sale_payout * ((((build_monthly_dataframe p).get ⟨i, hi⟩).new_clients : ℤ) : ℚ)
            * p.commission_rate
        else
          p.new_sale_payout * ((((build_monthly_dataframe p).get ⟨i, hi⟩).new_clients : ℤ) : ℚ))
      else 0 := by
  rw [build_get]
  show (rowAt p (clamped_churn_rate p) (i + 1)).new_sale_income = _
  simp only [rowAt, mkRow]
  by_cases hcom : p.payout_type = PayoutType.commissionable <;>
    by_cases hc : (p.payout_policy = PayoutPolicy.bonusOnly ∨ p.payout_policy = PayoutPolicy.bonusRecurring)
        ∧ p.use_new_sale_bonus = true ∧ 0 < p.payout_duration ∧ ((i + 1 : ℕ) : ℤ) ≤ p.payout_duration <;>
    simp_all [bonus_is_commissionable, include_bonus_iff, mul_assoc]

theorem C2_witness :
    ((build_monthly_dataframe P2).get ⟨0, by decide⟩).new_sale_income =
      if (P2.payout_policy = PayoutPolicy.bonusOnly ∨ P2.payout_policy = PayoutPolicy.bonusRecurring)
          ∧ P2.use_new_sale_bonus = true
          ∧ 0 < P2.payout_duration
          ∧ ((0 + 1 : ℕ) : ℤ) ≤ P2.payout_duration then
        (if P2.payout_type = PayoutType.commissionable then
          P2.new_sale_payout * ((((build_monthly_dataframe P2).get ⟨0, by decide⟩).new_clients : ℤ) : ℚ)
            * P2.commission_rate
        else
          P2.new_sale_payout * ((((build_monthly_dataframe P2).get ⟨0, by decide⟩).new_clients : ℤ) : ℚ))
      else 0 :=
  C2_new_sale_income P2 0 (by decide)

/-- C4: in every emitted row, under Recurring-only the New Sale Income is 0;
under Bonus-only the Commission from Clients, gross Client Payments and
paying-clients count are 0; and the Total Monthly Earnings is the bonus
under Bonus-only, the commission under Recurring-only, and their sum under
Bonus+Recurring. -/
theorem C4_policy_partition (p : Params) (i : ℕ)
    (hi : i < (build_monthly_dataframe p).length) :
    (if p.payout_policy = PayoutPolicy.recurringOnly then
        ((build_monthly_dataframe p).get ⟨i, hi⟩).new_sale_income = 0
      else True)
    ∧ (if p.payout_policy = PayoutPolicy.bonusOnly then
        ((build_monthly_dataframe p).get ⟨i, hi⟩).commission_from_clients = 0
        ∧ ((build_monthly_dataframe p).get ⟨i, hi⟩).gross_client_payments = 0
        ∧ ((build_monthly_dataframe p).get ⟨i, hi⟩).paying_clients = 0
      else True)
    ∧ ((build_monthly_dataframe p).get ⟨i, hi⟩).total_monthly_earnings =
      (if p.payout_policy = PayoutPolicy.bonusOnly then
        ((build_monthly_dataframe p).get ⟨i, hi⟩).new_sale_income
      else if p.payout_policy = PayoutPolicy.recurringOnly then
        ((build_monthly_dataframe p).get ⟨i, hi⟩).commission_from_clients
      else
        ((build_monthly_dataframe p).get ⟨i, hi⟩).new_sale_income
          + ((build_monthly_dataframe p).get ⟨i, hi⟩).commission_from_clients) := by
  rw [build_get]
  cases hpol : p.payout_policy <;>
    simp [rowAt, mkRow, include_bonus, include_recurring, bonus_is_commissionable, hpol]

theorem C4_witness :
    (if P1.payout_policy = PayoutPolicy.recurringOnly then
        ((build_monthly_dataframe P1).get ⟨0, by decide⟩).new_sale_income = 0
      else True)
    ∧ (if P1.payout_policy = PayoutPolicy.bonusOnly then
        ((build_monthly_dataframe P1).get ⟨0, by decide⟩).commission_from_clients = 0
        ∧ ((build_monthly_dataframe P1).get ⟨0, by decide⟩).gross_client_payments = 0
        ∧ ((build_monthly_dataframe P1).get ⟨0, by decide⟩).paying_clients = 0
      else True)
    ∧ ((build_monthly_dataframe P1).get ⟨0, by decide⟩).total_monthly_earnings =
      (if P1.payout_policy = PayoutPolicy.bonusOnly then
        ((build_monthly_dataframe P1).get ⟨0, by decide⟩).new_sale_income
      else if P1.payout_policy = PayoutPolicy.recurringOnly then
        ((build_monthly_dataframe P1).get ⟨0, by decide⟩).commission_from_clients
      else
        ((build_monthly_dataframe P1).get ⟨0, by decide⟩).new_sale_income
          + ((build_monthly_dataframe P1).get ⟨0, by decide⟩).commission_from_clients) :=
  C4_policy_partition P1 0 (by decide)

/-- C5: the Contract Pricing Rule returns 0 while the age is below the free
months; past the free period it returns the intro amount while the effective
age is below the intro months and the recurring amount afterwards for an
Intro+Recurring contract, and the flat amount for a Flat contract. -/
theorem C5_contract_pricing (ct : ContractType) (age free intro_m : ℤ) (ia ra fa : ℚ)
    (h0 : 0 ≤ age) (h1 : 0 ≤ free) (h2 : 0 ≤ intro_m)
    (h3 : 0 ≤ ia) (h4 : 0 ≤ ra) (h5 : 0 ≤ fa) :
    per_client_payment ct age free intro_m ia ra fa =
      if age < free then 0
      else if ct = ContractType.introRecurring then
        (if age - free < intro_m then ia else ra)
      else fa := rfl

theorem C5_witness :
    per_client_payment ContractType.introRecurring 5 1 2 30 20 0 =
      if (5 : ℤ) < 1 then 0
      else if ContractType.introRecurring = ContractType.introRecurring then
        (if (5 : ℤ) - 1 < 2 then 30 else 20)
      else 0 :=
  C5_contract_pricing ContractType.introRecurring 5 1 2 30 20 0
    (by decide) (by decide) (by decide) (by decide) (by decide) (by decide)

/-- C6, counterexample to the claim as stated: at churn rate 1 (which is
strictly greater than 0) the survival factor is 0 at both age 1 and age 2,
so it is not strictly decreasing in the age for every rate above 0. -/
theorem C6_counterexample :
    (0 : ℚ) < 1 ∧ (0 : ℤ) ≤ 1 ∧ (1 : ℤ) < 2
    ∧ ¬ survival_factor 1 2 < survival_factor 1 1 := by
  refine ⟨by norm_num, by decide, by decide, ?_⟩
  norm_num [survival_factor]

/-- C6, amended: for every churn rate strictly between 0 and 1 the survival
factor is strictly decreasing in the churn age over nonnegative ages, and
for every rate the survival factor at age 0 equals 1. -/
theorem C6_churn_monotonic_decay (rate rate2 : ℚ) (a b : ℤ)
    (h0 : 0 < rate) (h1 : rate < 1) (ha : 0 ≤ a) (hab : a < b) :
    survival_factor rate b < survival_factor rate a ∧ survival_factor rate2 0 = 1 := by
  constructor
  · have hb : 0 < b := lt_of_le_of_lt ha hab
    have h1r0 : (0 : ℚ) < 1 - rate := by linarith
    have h1r1 : 1 - rate < 1 := by linarith
    have hsb : survival_factor rate b = (1 - rate) ^ b.toNat := by
      rw [survival_factor, if_neg]
      push_neg
      exact ⟨h0, hb⟩
    rcases eq_or_lt_of_le ha with h | h
    · have hsa : survival_factor rate a = 1 := by
        rw [survival_factor, if_pos (Or.inr (le_of_eq h.symm))]
      rw [hsa, hsb]
      exact pow_lt_one₀ (le_of_lt h1r0) h1r1 (by omega)
    · have hsa : survival_factor rate a = (1 - rate) ^ a.toNat := by
        rw [survival_factor, if_neg]
        push_neg
        exact ⟨h0, h⟩
      rw [hsa, hsb]
      exact pow_lt_pow_right_of_lt_one₀ h1r0 h1r1 (by omega)
  · rw [survival_factor, if_pos (Or.inr le_rfl)]

theorem C6_witness :
    survival_factor (1 / 2) 2 < survival_factor (1 / 2) 1 ∧ survival_factor 5 0 = 1 :=
  C6_churn_monotonic_decay (1 / 2) 5 1 2 (by norm_num) (by norm_num) (by decide) (by decide)

/-- C7: the Lifetime Gate is monotone — once a cohort is inactive at age `a`
(with age-from-first-payment computed as `max (a - free) 0`) it is inactive
at every later age `b`, for every limit, counting mode and free-months
count. -/
theorem C7_lifetime_monotone (lifetime_months : ℤ) (mode : LifetimeMode) (free : ℤ)
    (a b : ℤ) (hab : a < b)
    (hfail : is_active_by_lifetime a (max (a - free) 0) lifetime_months mode = false) :
    is_active_by_lifetime b (max (b - free) 0) lifetime_months mode = false := by
  unfold is_active_by_lifetime at hfail ⊢
  by_cases hL : lifetime_months ≤ 0
  · simp [hL] at hfail
  · cases mode <;> simp_all <;> omega

theorem C7_witness :
    is_active_by_lifetime 2 (max ((2 : ℤ) - 0) 0) 1 LifetimeMode.fromActivation = false :=
  C7_lifetime_monotone 1 LifetimeMode.fromActivation 0 1 2 (by decide) (by decide)

/-- C9: the engine is deterministic (equal parameter sets produce equal row
sequences) and the currency label has no influence on the computed rows. -/
theorem C9_deterministic (p q : Params) (hpq : p = q) (c : String) :
    build_monthly_dataframe p = build_monthly_dataframe q
    ∧ build_monthly_dataframe { p with currency := c } = build_monthly_dataframe p := by
  constructor
  · rw [hpq]
  · have hstep : ∀ (cr : ℚ) (m : ℕ) (st : EngineState),
        step { p with currency := c } cr m st = step p cr m st := by
      intro cr m st; rfl
    have hrun : ∀ (cr : ℚ) (n : ℕ),
        runState { p with currency := c } cr n = runState p cr n := by
      intro cr n
      induction n with
      | zero => rfl
      | succ n ih => rw [runState, runState, hstep, ih]
    unfold build_monthly_dataframe
    rw [show clamped_churn_rate { p with currency := c } = clamped_churn_rate p from rfl,
      hrun]

theorem C9_witness :
    build_monthly_dataframe P1 = build_monthly_dataframe P1
    ∧ build_monthly_dataframe { P1 with currency := "X" } = build_monthly_dataframe P1 :=
  C9_deterministic P1 P1 rfl "X"

/-! ### Yearly aggregation -/

lemma build_map_month (p : Params) :
    (build_monthly_dataframe p).map Row.month = (List.range p.months).map (fun i => i + 1) := by
  rw [build_eq_map, List.map_map]
  rfl

lemma foldl_max_years (n : ℕ) :
    ((List.range n).map (fun i => i / 12 + 1)).foldl max 0 = (n + 11) / 12 := by
  induction n with
  | zero => simp
  | succ n ih =>
    rw [List.range_succ, List.map_append, List.foldl_append, ih]
    simp only [List.map_cons, List.map_nil, List.foldl_cons, List.foldl_nil]
    omega

lemma any_year (n y : ℕ) :
    ((List.range n).any (fun i => i / 12 + 1 == y)) = decide (1 ≤ y ∧ y ≤ (n + 11) / 12) := by
  rw [Bool.eq_iff_iff]
  simp only [List.any_eq_true, List.mem_range, beq_iff_eq, decide_eq_true_eq]
  constructor
  · rintro ⟨i, hin, hiy⟩
    omega
  · rintro ⟨h1, h2⟩
    exact ⟨12 * (y - 1), by omega, by omega⟩

lemma filter_year_range (M : ℕ) :
    (List.range (M + 1)).filter (fun y => decide (1 ≤ y ∧ y ≤ M)) =
      (List.range M).map (fun k => k + 1) := by
  rw [List.range_succ_eq_map, List.filter_cons]
  simp only [decide_eq_true_eq]
  rw [if_neg (by omega)]
  rw [List.filter_map]
  have : (List.range M).filter ((fun y => decide (1 ≤ y ∧ y ≤ M)) ∘ (fun k => k + 1)) =
      List.range M := by
    apply List.filter_eq_self.mpr
    intro a ha
    simp only [List.mem_range] at ha
    simp only [Function.comp]
    exact decide_eq_true (by omega)
  rw [this]

lemma any_map_general {α β : Type} (f : α → β) (l : List α) (q : β → Bool) :
    (l.map f).any q = l.any (fun a => q (f a)) := by
  induction l with
  | nil => rfl
  | cons a l ih => simp [List.any_cons, ih]

/-- C8: the Yearly Aggregator groups month `m` into year `(m - 1) / 12 + 1`,
emits exactly one totals row per year in ascending year order (a partial
final year allowed), and each yearly row's gross payments, new-sale income,
commission and total earnings are the sums of that metric over the
constituent months. -/
theorem C8_yearly_totals (p : Params) :
    yearly_totals (build_monthly_dataframe p) =
      (List.range ((p.months + 11) / 12)).map (fun k =>
        { year := k + 1
          gross_client_payments := (((build_monthly_dataframe p).filter
              (fun r => (r.month - 1) / 12 + 1 == k + 1)).map Row.gross_client_payments).sum
          new_sale_income := (((build_monthly_dataframe p).filter
              (fun r => (r.month - 1) / 12 + 1 == k + 1)).map Row.new_sale_income).sum
          commission_from_clients := (((build_monthly_dataframe p).filter
              (fun r => (r.month - 1) / 12 + 1 == k + 1)).map Row.commission_from_clients).sum
          total_earnings := (((build_monthly_dataframe p).filter
              (fun r => (r.month - 1) / 12 + 1 == k + 1)).map Row.total_monthly_earnings).sum
          : YearRow }) := by
  have h1 : (build_monthly_dataframe p).map (fun r => yearOf r.month) =
      (List.range p.months).map (fun i => i / 12 + 1) := by
    rw [build_eq_map, List.map_map]
    rfl
  have h2 : ∀ y, ((build_monthly_dataframe p).any (fun r => yearOf r.month == y)) =
      decide (1 ≤ y ∧ y ≤ (p.months + 11) / 12) := by
    intro y
    rw [build_eq_map, any_map_general]
    exact any_year p.months y
  show ((List.range (((build_monthly_dataframe p).map (fun r => yearOf r.month)).foldl max 0 + 1)).filter
      (fun y => (build_monthly_dataframe p).any (fun r => yearOf r.month == y))).map
      (yearSum (build_monthly_dataframe p)) = _
  rw [h1, foldl_max_years]
  simp only [h2]
  rw [filter_year_range, List.map_map]
  rfl

/-! ### Row invariants (C10) -/

lemma newClientsAt_nonneg (p : Params) (hdn : 0 ≤ p.default_new_clients)
    (hon : 0 ≤ p.override_new_clients) (m : ℕ) : 0 ≤ newClientsAt p m := by
  unfold newClientsAt
  split <;> assumption

lemma netSizeAt_nonneg (p : Params) (hdn : 0 ≤ p.default_new_clients)
    (hon : 0 ≤ p.override_new_clients) (m : ℕ) : 0 ≤ netSizeAt p m := by
  unfold netSizeAt
  split
  · exact le_max_right _ _
  · exact newClientsAt_nonneg p hdn hon m

lemma clamped_nonneg (p : Params) : 0 ≤ clamped_churn_rate p :=
  le_max_right _ _

lemma clamped_lt_one (p : Params) : clamped_churn_rate p < 1 := by
  unfold clamped_churn_rate
  apply max_lt _ one_pos
  exact lt_of_le_of_lt (min_le_right _ _) (by norm_num)

lemma survival_factor_nonneg (cr : ℚ) (h0 : 0 ≤ cr) (h1 : cr < 1) (age : ℤ) :
    0 ≤ survival_factor cr age := by
  unfold survival_factor
  split
  · exact zero_le_one
  · exact pow_nonneg (by linarith) _

lemma per_client_payment_nonneg (ct : ContractType) (age free im : ℤ) (ia ra fa : ℚ)
    (hia : 0 ≤ ia) (hra : 0 ≤ ra) (hfa : 0 ≤ fa) :
    0 ≤ per_client_payment ct age free im ia ra fa := by
  unfold per_client_payment
  dsimp only
  split
  · exact le_refl 0
  · split
    · split <;> assumption
    · exact hfa

lemma cohort_contrib_nonneg (p : Params) (cr : ℚ) (m : ℕ) (c : Cohort)
    (hsz : 0 ≤ c.size) (h0 : 0 ≤ cr) (h1 : cr < 1)
    (hia : 0 ≤ p.intro_amount) (hra : 0 ≤ p.recurring_amount) (hfa : 0 ≤ p.flat_amount) :
    0 ≤ (cohort_contrib p cr m c).1 ∧ 0 ≤ (cohort_contrib p cr m c).2 := by
  unfold cohort_contrib
  dsimp only
  have hszq : (0 : ℚ) ≤ (c.size : ℚ) := by exact_mod_cast hsz
  have hsf : ∀ x : ℤ, (0 : ℚ) ≤ (if p.cancellations_mode = CancellationsMode.churn then
      survival_factor cr x else 1) := by
    intro x
    split
    · exact survival_factor_nonneg cr h0 h1 x
    · exact zero_le_one
  split
  · exact ⟨le_refl 0, le_refl 0⟩
  · split
    · split
      · constructor
        · exact mul_nonneg
            (per_client_payment_nonneg _ _ _ _ _ _ _ hia hra hfa)
            (mul_nonneg hszq (hsf _))
        · exact mul_nonneg hszq (hsf _)
      · exact ⟨le_refl 0, le_refl 0⟩
    · exact ⟨le_refl 0, le_refl 0⟩

lemma foldl_contrib_nonneg (p : Params) (cr : ℚ) (m : ℕ) (l : List Cohort)
    (hl : ∀ c ∈ l, 0 ≤ c.size) (h0 : 0 ≤ cr) (h1 : cr < 1)
    (hia : 0 ≤ p.intro_amount) (hra : 0 ≤ p.recurring_amount) (hfa : 0 ≤ p.flat_amount) :
    ∀ init : ℚ × ℚ, 0 ≤ init.1 → 0 ≤ init.2 →
      0 ≤ (l.foldl (fun acc c =>
        let gp := cohort_contrib p cr m c
        (acc.1 + gp.1, acc.2 + gp.2)) init).1
      ∧ 0 ≤ (l.foldl (fun acc c =>
        let gp := cohort_contrib p cr m c
        (acc.1 + gp.1, acc.2 + gp.2)) init).2 := by
  induction l with
  | nil => intro init hi1 hi2; exact ⟨hi1, hi2⟩
  | cons c l ih =>
    intro init hi1 hi2
    have hc := cohort_contrib_nonneg p cr m c (hl c (List.mem_cons_self c l)) h0 h1 hia hra hfa
    exact ih (fun d hd => hl d (List.mem_cons_of_mem c hd)) _
      (add_nonneg hi1 hc.1) (add_nonneg hi2 hc.2)

lemma recurring_totals_nonneg (p : Params) (cr : ℚ) (m : ℕ) (l : List Cohort)
    (hl : ∀ c ∈ l, 0 ≤ c.size) (h0 : 0 ≤ cr) (h1 : cr < 1)
    (hia : 0 ≤ p.intro_amount) (hra : 0 ≤ p.recurring_amount) (hfa : 0 ≤ p.flat_amount) :
    0 ≤ (recurring_totals p cr m l).1 ∧ 0 ≤ (recurring_totals p cr m l).2 :=
  foldl_contrib_nonneg p cr m l hl h0 h1 hia hra hfa (0, 0) (le_refl 0) (le_refl 0)

lemma cohortsUpTo_size_nonneg (p : Params) (hdn : 0 ≤ p.default_new_clients)
    (hon : 0 ≤ p.override_new_clients) (m : ℕ) :
    ∀ c ∈ cohortsUpTo p m, 0 ≤ c.size := by
  intro c hc
  simp only [cohortsUpTo, List.mem_map, List.mem_range] at hc
  obtain ⟨j, _, rfl⟩ := hc
  exact netSizeAt_nonneg p hdn hon (j + 1)

lemma signedUpTo_nonneg (p : Params) (hdn : 0 ≤ p.default_new_clients)
    (hon : 0 ≤ p.override_new_clients) (m : ℕ) : 0 ≤ signedUpTo p m := by
  unfold signedUpTo
  apply List.sum_nonneg
  intro x hx
  simp only [List.mem_map, List.mem_range] at hx
  obtain ⟨j, _, rfl⟩ := hx
  exact netSizeAt_nonneg p hdn hon (j + 1)

lemma signedUpTo_mono (p : Params) (hdn : 0 ≤ p.default_new_clients)
    (hon : 0 ≤ p.override_new_clients) (m : ℕ) :
    signedUpTo p m ≤ signedUpTo p (m + 1) := by
  unfold signedUpTo
  rw [List.range_succ, List.map_append, List.sum_append]
  simp only [List.map_cons, List.map_nil, List.sum_cons, List.sum_nil, add_zero]
  exact le_add_of_nonneg_right (netSizeAt_nonneg p hdn hon (m + 1))

theorem C10_invariants (p : Params)
    (hm : 1 ≤ p.months)
    (hcr0 : 0 ≤ p.commission_rate) (hcr1 : p.commission_rate ≤ 1)
    (hch0 : 0 ≤ p.churn_percent) (hch1 : p.churn_percent ≤ 100)
    (hb : 0 ≤ p.new_sale_payout) (hia : 0 ≤ p.intro_amount)
    (hra : 0 ≤ p.recurring_amount) (hfa : 0 ≤ p.flat_amount)
    (hfm : 0 ≤ p.free_months) (him : 0 ≤ p.intro_months)
    (hpd : 0 ≤ p.payout_duration) (hlm : 0 ≤ p.lifetime_months)
    (hdn : 0 ≤ p.default_new_clients) (hon : 0 ≤ p.override_new_clients)
    (hca : 0 ≤ p.cancellations)
    (i j : ℕ) (hi : i < (build_monthly_dataframe p).length)
    (hj : j + 1 < (build_monthly_dataframe p).length) :
    0 ≤ ((build_monthly_dataframe p).get ⟨i, hi⟩).net_activations
    ∧ 0 ≤ ((build_monthly_dataframe p).get ⟨i, hi⟩).signed_cum
    ∧ 0 ≤ ((build_monthly_dataframe p).get ⟨i, hi⟩).paying_clients
    ∧ 0 ≤ ((build_monthly_dataframe p).get ⟨i, hi⟩).gross_client_payments
    ∧ 0 ≤ ((build_monthly_dataframe p).get ⟨i, hi⟩).new_sale_income
    ∧ 0 ≤ ((build_monthly_dataframe p).get ⟨i, hi⟩).commission_from_clients
    ∧ 0 ≤ ((build_monthly_dataframe p).get ⟨i, hi⟩).total_monthly_earnings
    ∧ ((build_monthly_dataframe p).get ⟨j, Nat.lt_of_succ_lt hj⟩).signed_cum
        ≤ ((build_monthly_dataframe p).get ⟨j + 1, hj⟩).signed_cum := by
  rw [build_get, build_get, build_get]
  set cr := clamped_churn_rate p with hcr
  have h0 : 0 ≤ cr := clamped_nonneg p
  have h1 : cr < 1 := clamped_lt_one p
  have hrec := recurring_totals_nonneg p cr (i + 1) (cohortsUpTo p (i + 1))
    (cohortsUpTo_size_nonneg p hdn hon (i + 1)) h0 h1 hia hra hfa
  have hgross : 0 ≤ (if include_recurring p then
      recurring_totals p cr (i + 1) (cohortsUpTo p (i + 1)) else ((0 : ℚ), (0 : ℚ))).1 := by
    split
    · exact hrec.1
    · exact le_refl 0
  have hpay : 0 ≤ (if include_recurring p then
      recurring_totals p cr (i + 1) (cohortsUpTo p (i + 1)) else ((0 : ℚ), (0 : ℚ))).2 := by
    split
    · exact hrec.2
    · exact le_refl 0
  have hnc : (0 : ℚ) ≤ (newClientsAt p (i + 1) : ℚ) := by
    exact_mod_cast newClientsAt_nonneg p hdn hon (i + 1)
  have hraw : 0 ≤ (if include_bonus p ∧ p.use_new_sale_bonus ∧ p.payout_duration > 0 ∧
      ((i + 1 : ℕ) : ℤ) ≤ p.payout_duration then
        p.new_sale_payout * (newClientsAt p (i + 1) : ℚ)
      else 0) := by
    split
    · exact mul_nonneg hb hnc
    · exact le_refl 0
  have hbonus : 0 ≤ (if bonus_is_commissionable p then
      (if include_bonus p ∧ p.use_new_sale_bonus ∧ p.payout_duration > 0 ∧
        ((i + 1 : ℕ) : ℤ) ≤ p.payout_duration then
          p.new_sale_payout * (newClientsAt p (i + 1) : ℚ)
        else 0) * p.commission_rate
      else
      (if include_bonus p ∧ p.use_new_sale_bonus ∧ p.payout_duration > 0 ∧
        ((i + 1 : ℕ) : ℤ) ≤ p.payout_duration then
          p.new_sale_payout * (newClientsAt p (i + 1) : ℚ)
        else 0)) := by
    split
    · exact mul_nonneg hraw hcr0
    · exact hraw
  have hcomm : 0 ≤ (if include_recurring p then
      (if include_recurring p then
        recurring_totals p cr (i + 1) (cohortsUpTo p (i + 1)) else ((0 : ℚ), (0 : ℚ))).1
        * p.commission_rate
      else 0) := by
    split
    · exact mul_nonneg hrec.1 hcr0
    · exact le_refl 0
  refine ⟨netSizeAt_nonneg p hdn hon (i + 1), signedUpTo_nonneg p hdn hon (i + 1),
    hpay, hgross, hbonus, hcomm, ?_, signedUpTo_mono p hdn hon (j + 1)⟩
  show (0 : ℚ) ≤ if p.payout_policy = PayoutPolicy.bonusOnly then _ else _
  split
  · exact hbonus
  · split
    · exact hcomm
    · exact add_nonneg hbonus hcomm

theorem C10_witness :
    0 ≤ ((build_monthly_dataframe P1).get ⟨0, by decide⟩).net_activations
    ∧ 0 ≤ ((build_monthly_dataframe P1).get ⟨0, by decide⟩).signed_cum
    ∧ 0 ≤ ((build_monthly_dataframe P1).get ⟨0, by decide⟩).paying_clients
    ∧ 0 ≤ ((build_monthly_dataframe P1).get ⟨0, by decide⟩).gross_client_payments
    ∧ 0 ≤ ((build_monthly_dataframe P1).get ⟨0, by decide⟩).new_sale_income
    ∧ 0 ≤ ((build_monthly_dataframe P1).get ⟨0, by decide⟩).commission_from_clients
    ∧ 0 ≤ ((build_monthly_dataframe P1).get ⟨0, by decide⟩).total_monthly_earnings
    ∧ ((build_monthly_dataframe P1).get ⟨0, by decide⟩).signed_cum
        ≤ ((build_monthly_dataframe P1).get ⟨1, by decide⟩).signed_cum :=
  C10_invariants P1 (by decide) (by norm_num [P1]) (by norm_num [P1])
    (by norm_num [P1]) (by norm_num [P1]) (by norm_num [P1]) (by norm_num [P1])
    (by norm_num [P1]) (by norm_num [P1]) (by decide) (by decide) (by decide)
    (by decide) (by decide) (by decide) (by decide) 0 0 (by decide) (by decide)


end PaymentsApp
